import Mathlib

/-!
Shallow embedding of the synchronization core of the sf-toolkit CLI
(src/index.js): local config records, the usage-graph attach/detach
bookkeeping on a shared part's `used_in` list, identity discovery
(`getTemplateId`), paginated bulk import, and the publish flows.
JavaScript object semantics (insertion-ordered keys, `undefined` values,
truthiness, strict equality across types) are modelled explicitly.
-/

namespace Silverfin

/-- A JavaScript object with numeric keys and `number | undefined` values,
kept in insertion order.  A value of `none` models a key that is present
but stores `undefined`; an absent key is simply not in the list.  The
`id` and `partnerId` maps of config records and usage entries are such
objects. -/
abbrev JsObj := List (Nat × Option Nat)

/-- Reading `obj[k]`.  Both an absent key and a key stored with
`undefined` read as `undefined`, i.e. `none`. -/
def JsObj.getVal : JsObj → Nat → Option Nat
  | [], _ => none
  | (k', v') :: rest, k => if k' = k then v' else JsObj.getVal rest k

/-- Assignment `obj[k] = v`: updates an existing key in place, otherwise
appends the key (JavaScript insertion order). -/
def JsObj.set : JsObj → Nat → Option Nat → JsObj
  | [], k, v => [(k, v)]
  | (k', v') :: rest, k, v =>
    if k' = k then (k, v) :: rest else (k', v') :: JsObj.set rest k v

/-- `delete obj[k]`: removes the key if present. -/
def JsObj.erase : JsObj → Nat → JsObj
  | [], _ => []
  | (k', v') :: rest, k =>
    if k' = k then rest else (k', v') :: JsObj.erase rest k

/-- JavaScript truthiness of a `number | undefined` value:
`undefined` and `0` are falsy. -/
def jsTruthy : Option Nat → Bool
  | some v => v != 0
  | none => false

/-- JavaScript truthiness of a `string | undefined` value:
`undefined` and the empty string are falsy. -/
def jsTruthyStr : Option String → Bool
  | some s => s != ""
  | none => false

/-- JavaScript strict equality `===` between a boolean and a number is
always `false` (no coercion under strict equality). -/
def jsStrictEqBoolNat (_b : Bool) (_n : Nat) : Bool := false

/-- Scope of an environment: a firm or a partner account.  Selects which
identity map (`id` vs `partnerId`) applies. -/
inductive Scope : Type
  | firm
  | partner
deriving DecidableEq, Repr

/-- One element of a shared part's `used_in` list: records that the
shared part is attached to the template `(type, handle)`, with per-scope
env-id → remote-template-id maps.  Entries written by the new command
surface carry a `handle`; `name` can additionally be present in config
files read from disk. -/
structure UsageEntry : Type where
  type : String
  handle : Option String
  name : Option String
  id : JsObj
  partnerId : JsObj
deriving DecidableEq, Repr

/-- A local config record: per-scope identity maps (absent until first
initialized, hence `Option`) and, on shared parts, the `used_in` list
(absent until first attach). -/
structure Config : Type where
  id : Option JsObj
  partnerId : Option JsObj
  used_in : Option (List UsageEntry)
deriving DecidableEq, Repr

/-- `type == "firm" ? config?.id?.[envId] : config?.partnerId?.[envId]` -/
def Config.scopedId (c : Config) (scope : Scope) (envId : Nat) : Option Nat :=
  match scope with
  | Scope.firm => (c.id.getD []).getVal envId
  | Scope.partner => (c.partnerId.getD []).getVal envId

/-- Observable side effects of the operations, in program order. -/
inductive Effect : Type
  | readConfig (templateType handle : String)
  | writeConfig (templateType handle : String)
  | gatewayFind (templateType handle : String)
  | gatewayAttach
  | gatewayDetach
  | gatewayUpdate
deriving DecidableEq, Repr

/-- Whether an effect is a network call to the Platform Gateway. -/
def isNetworkEffect : Effect → Bool
  | Effect.gatewayFind _ _ => true
  | Effect.gatewayAttach => true
  | Effect.gatewayDetach => true
  | Effect.gatewayUpdate => true
  | _ => false

/-- `data` object of a gateway response, with the fields the code reads. -/
structure RespData : Type where
  handle : Option String
  name : Option String
  name_nl : Option String
  dataId : Option Nat
deriving DecidableEq, Repr

/-- A gateway response object: `status` plus an optional `data` object.
A transport-level missing response is modelled as `none` at use sites. -/
structure SfResponse : Type where
  status : Option Nat
  data : Option RespData
deriving DecidableEq, Repr

theorem JsObj.getVal_set (m : JsObj) (k : Nat) (v : Option Nat) :
    (m.set k v).getVal k = v := by
  induction m with
  | nil => simp [JsObj.set, JsObj.getVal]
  | cons hd tl ih =>
    by_cases h : hd.1 = k
    · simp [JsObj.set, h, JsObj.getVal]
    · simp [JsObj.set, h, JsObj.getVal, ih]

/-! ## Identity discovery: `getTemplateId` (src/index.js, new surface)

The four-way dispatch over the gateway's find-by-handle/name endpoints is
abstracted into the `findResult` oracle argument (the id of the template
the platform found, or `none`). -/

/-- `getTemplateId(type, envId, templateType, handle)`: look the template
up on the platform; on failure return `false` without touching the
config; on success initialize the `id`/`partnerId` maps when they are not
objects yet, store the discovered id under `envId` in the map of the
active scope, and persist the config.  Returns
(return value, resulting config record, effects). -/
def getTemplateId (findResult : Option Nat) (config : Config) (scope : Scope)
    (envId : Nat) (templateType handle : String) :
    Bool × Config × List Effect :=
  match findResult with
  | none => (false, config, [Effect.gatewayFind templateType handle])
  | some rid =>
    let cfg1 : Config :=
      { config with id := some (config.id.getD []),
                    partnerId := some (config.partnerId.getD []) }
    let cfg2 : Config :=
      match scope with
      | Scope.firm => { cfg1 with id := some ((cfg1.id.getD []).set envId (some rid)) }
      | Scope.partner => { cfg1 with partnerId := some ((cfg1.partnerId.getD []).set envId (some rid)) }
    (true, cfg2,
      [Effect.gatewayFind templateType handle, Effect.writeConfig templateType handle])

/-! ## Usage-graph attach: `addSharedPart` (src/index.js, new surface) -/

/-- The `findIndex` predicate used by attach and detach:
`templateHandle === template.handle || templateHandle === template.name`. -/
def entryMatches (templateHandle : String) (e : UsageEntry) : Bool :=
  e.handle == some templateHandle || e.name == some templateHandle

/-- Update the first element of a list satisfying `p` by `f`; `none` when
no element matches (the `findIndex === -1` case). -/
def updateFirstMatch {α : Type} (p : α → Bool) (f : α → α) : List α → Option (List α)
  | [] => none
  | x :: xs =>
    if p x then some (f x :: xs)
    else Option.map (fun ys => x :: ys) (updateFirstMatch p f xs)

/-- The Usage Entry pushed on first attach of a template:
`{ id: type == "firm" ? templateConfig?.id : {}, partnerId: ..., type, handle }`.
(The reachable callers guarantee the active map is an object, hence
`getD []` for the `?.` chain.) -/
def newUsageEntry (scope : Scope) (templateType templateHandle : String)
    (templateConfig : Config) : UsageEntry :=
  { type := templateType
    handle := some templateHandle
    name := none
    id := if scope = Scope.firm then templateConfig.id.getD [] else []
    partnerId := if scope = Scope.partner then templateConfig.partnerId.getD [] else [] }

/-- The previously-stored branch of attach: merge the template's id for
`envId` into the active scope's map of the existing entry. -/
def mergeUsageEntry (scope : Scope) (envId : Nat) (templateConfig : Config)
    (e : UsageEntry) : UsageEntry :=
  match scope with
  | Scope.firm =>
    { e with id := e.id.set envId ((templateConfig.id.getD []).getVal envId) }
  | Scope.partner =>
    { e with partnerId := e.partnerId.set envId ((templateConfig.partnerId.getD []).getVal envId) }

/-- Lines 1298-1335 of src/index.js: find-or-create the Usage Entry for
the template inside the shared part's `used_in` list and store the
resolved id there. -/
def storeUsedIn (scope : Scope) (envId : Nat) (templateType templateHandle : String)
    (templateConfig sharedPartConfig : Config) : Config :=
  match sharedPartConfig.used_in with
  | none =>
    { sharedPartConfig with
        used_in := some [newUsageEntry scope templateType templateHandle templateConfig] }
  | some entries =>
    match updateFirstMatch (entryMatches templateHandle)
        (mergeUsageEntry scope envId templateConfig) entries with
    | none =>
      { sharedPartConfig with
          used_in := some (entries ++ [newUsageEntry scope templateType templateHandle templateConfig]) }
    | some entries2 => { sharedPartConfig with used_in := some entries2 }

/-- The attach success check of src/index.js line 1291 (and line 295 of
the legacy surface), modelled operator by operator:
`!response || !response.status || !response.status === 201`.
Note the third disjunct strict-compares the boolean `!response.status`
with the number `201`. -/
def attachResponseFailed : Option SfResponse → Bool
  | none => true
  | some r => !(jsTruthy r.status) || jsStrictEqBoolNat (!(jsTruthy r.status)) 201

/-- Environment of one `addSharedPart` call: the two config records on
disk and the gateway's answers. -/
structure AttachEnv : Type where
  templateConfig : Config
  sharedPartConfig : Config
  findTemplate : Option Nat
  findSharedPart : Option Nat
  attachResponse : Option SfResponse
deriving DecidableEq, Repr

/-- Final stage of `addSharedPart`: the gateway attach call, the (broken)
success check, the `used_in` bookkeeping and the two config writes.
Returns the function's return value (`some` final shared-part config on
success, `none` for `false`) and the effect trace. -/
def addSharedPartStep3 (env : AttachEnv) (scope : Scope) (envId : Nat)
    (sharedPartName templateHandle templateType : String)
    (tCfg sCfg : Config) (eff : List Effect) : Option Config × List Effect :=
  let eff2 := eff ++ [Effect.gatewayAttach]
  if attachResponseFailed env.attachResponse then (none, eff2)
  else
    let sCfg2 := storeUsedIn scope envId templateType templateHandle tCfg sCfg
    (some sCfg2,
      eff2 ++ [Effect.writeConfig templateType templateHandle,
               Effect.writeConfig "sharedPart" sharedPartName])

/-- Middle stage of `addSharedPart`: resolve the shared part's id,
falling back to `getTemplateId` discovery when the active scope's map has
no usable id. -/
def addSharedPartStep2 (env : AttachEnv) (scope : Scope) (envId : Nat)
    (sharedPartName templateHandle templateType : String)
    (tCfg sCfg : Config) (eff : List Effect) : Option Config × List Effect :=
  if jsTruthy (sCfg.scopedId scope envId) then
    addSharedPartStep3 env scope envId sharedPartName templateHandle templateType tCfg sCfg eff
  else
    let r := getTemplateId env.findSharedPart sCfg scope envId "sharedPart" sharedPartName
    if r.1 then
      addSharedPartStep3 env scope envId sharedPartName templateHandle templateType
        tCfg r.2.1 (eff ++ r.2.2 ++ [Effect.readConfig "sharedPart" sharedPartName])
    else (none, eff ++ r.2.2)

/-- `addSharedPart(type, envId, sharedPartName, templateHandle, templateType)`
(src/index.js lines 1205-1350): the partner/export-file guard, config
reads, id resolution with discovery fallback, gateway attach, and local
bookkeeping. -/
def addSharedPart (env : AttachEnv) (scope : Scope) (envId : Nat)
    (sharedPartName templateHandle templateType : String) : Option Config × List Effect :=
  if scope = Scope.partner ∧ templateType = "exportFile" then (none, [])
  else
    let eff1 : List Effect :=
      [Effect.readConfig templateType templateHandle,
       Effect.readConfig "sharedPart" sharedPartName]
    let tCfg := env.templateConfig
    let sCfg := env.sharedPartConfig
    if jsTruthy (tCfg.scopedId scope envId) then
      addSharedPartStep2 env scope envId sharedPartName templateHandle templateType tCfg sCfg eff1
    else
      let r := getTemplateId env.findTemplate tCfg scope envId templateType templateHandle
      if r.1 then
        addSharedPartStep2 env scope envId sharedPartName templateHandle templateType
          r.2.1 sCfg (eff1 ++ r.2.2 ++ [Effect.readConfig templateType templateHandle])
      else (none, eff1 ++ r.2.2)

/-- Number of entries of a `used_in` list matching a template handle. -/
def countMatching (templateHandle : String) (l : List UsageEntry) : Nat :=
  (l.filter (entryMatches templateHandle)).length

/-- The `used_in` list of a config, `[]` when absent. -/
def usedInList (c : Config) : List UsageEntry := c.used_in.getD []

theorem updateFirstMatch_eq_none {α : Type} (p : α → Bool) (f : α → α) (l : List α) :
    updateFirstMatch p f l = none → l.filter p = [] := by
  induction l with
  | nil => intro _; rfl
  | cons x xs ih =>
    intro h
    by_cases hx : p x
    · simp [updateFirstMatch, hx] at h
    · simp only [updateFirstMatch, hx] at h
      simp only [Bool.false_eq_true, if_false, Option.map_eq_none'] at h
      simp [List.filter_cons, hx, ih h]

theorem updateFirstMatch_filter_pos {α : Type} (p : α → Bool) (f : α → α)
    (l l' : List α) :
    updateFirstMatch p f l = some l' → 0 < (l.filter p).length := by
  induction l generalizing l' with
  | nil => intro h; simp [updateFirstMatch] at h
  | cons x xs ih =>
    intro h
    by_cases hx : p x
    · simp [List.filter_cons, hx]
    · simp only [updateFirstMatch, hx] at h
      simp only [Bool.false_eq_true, if_false, Option.map_eq_some'] at h
      obtain ⟨ys, hys, _⟩ := h
      simpa [List.filter_cons, hx] using ih ys hys

theorem updateFirstMatch_filter_length {α : Type} (p : α → Bool) (f : α → α)
    (hpf : ∀ x, p x = true → p (f x) = true) (l l' : List α) :
    updateFirstMatch p f l = some l' → (l'.filter p).length = (l.filter p).length := by
  induction l generalizing l' with
  | nil => intro h; simp [updateFirstMatch] at h
  | cons x xs ih =>
    intro h
    by_cases hx : p x
    · simp only [updateFirstMatch, hx, if_true, Option.some_inj] at h
      subst h
      simp [List.filter_cons, hx, hpf x hx]
    · simp only [updateFirstMatch, hx] at h
      simp only [Bool.false_eq_true, if_false, Option.map_eq_some'] at h
      obtain ⟨ys, hys, rfl⟩ := h
      simp [List.filter_cons, hx, ih ys hys]

theorem entryMatches_mergeUsageEntry (templateHandle : String) (scope : Scope)
    (envId : Nat) (templateConfig : Config) (e : UsageEntry) :
    entryMatches templateHandle (mergeUsageEntry scope envId templateConfig e) =
      entryMatches templateHandle e := by
  cases scope <;> rfl

theorem entryMatches_newUsageEntry (scope : Scope)
    (templateType templateHandle : String) (templateConfig : Config) :
    entryMatches templateHandle (newUsageEntry scope templateType templateHandle templateConfig) = true := by
  simp [entryMatches, newUsageEntry]

/-- After one run of the attach bookkeeping, a shared part whose
`used_in` list held at most one entry for the template handle holds
exactly one. -/
theorem storeUsedIn_count (scope : Scope) (envId : Nat)
    (templateType templateHandle : String) (templateConfig sharedPartConfig : Config)
    (hcount : countMatching templateHandle (usedInList sharedPartConfig) ≤ 1) :
    countMatching templateHandle
      (usedInList (storeUsedIn scope envId templateType templateHandle
        templateConfig sharedPartConfig)) = 1 := by
  unfold storeUsedIn
  cases hu : sharedPartConfig.used_in with
  | none =>
    simp [usedInList, countMatching, List.filter_cons,
      entryMatches_newUsageEntry scope templateType templateHandle templateConfig]
  | some entries =>
    have hc : (entries.filter (entryMatches templateHandle)).length ≤ 1 := by
      simpa [countMatching, usedInList, hu] using hcount
    cases hm : updateFirstMatch (entryMatches templateHandle)
        (mergeUsageEntry scope envId templateConfig) entries with
    | none =>
      have hzero := updateFirstMatch_eq_none _ _ entries hm
      simp [usedInList, countMatching, hm, List.filter_append, hzero, List.filter_cons,
        entryMatches_newUsageEntry scope templateType templateHandle templateConfig]
    | some entries2 =>
      have hpos := updateFirstMatch_filter_pos _ _ entries entries2 hm
      have hlen := updateFirstMatch_filter_length
        (entryMatches templateHandle) (mergeUsageEntry scope envId templateConfig)
        (fun x hx => by
          rw [entryMatches_mergeUsageEntry templateHandle scope envId templateConfig x]
          exact hx) entries entries2 hm
      simp only [usedInList, countMatching, hm, Option.getD_some]
      rw [hlen]
      omega

/-- The happy path of `addSharedPart` reduces to the bookkeeping step:
with both ids resolvable from the local configs, the guard not firing,
and the response check passing, the call returns the shared-part config
produced by `storeUsedIn`. -/
theorem addSharedPart_happy_path (env : AttachEnv) (scope : Scope) (envId : Nat)
    (sharedPartName templateHandle templateType : String)
    (hg : ¬(scope = Scope.partner ∧ templateType = "exportFile"))
    (ht : jsTruthy (env.templateConfig.scopedId scope envId) = true)
    (hs : jsTruthy (env.sharedPartConfig.scopedId scope envId) = true)
    (hr : attachResponseFailed env.attachResponse = false) :
    (addSharedPart env scope envId sharedPartName templateHandle templateType).1 =
      some (storeUsedIn scope envId templateType templateHandle
        env.templateConfig env.sharedPartConfig) := by
  unfold addSharedPart
  rw [if_neg hg, if_pos ht]
  unfold addSharedPartStep2
  rw [if_pos hs]
  unfold addSharedPartStep3
  rw [if_neg (by simp [hr])]

/-- Claim C1: attach maintains at most one Usage Entry per template in
the shared part's `used_in` list: two successful attaches of the same
`(templateType, templateHandle)` pair, starting from a config with at
most one entry for it, leave exactly one entry (the second attach merges
into the existing one instead of appending). -/
theorem addSharedPart_no_duplicate_usage_entry
    (env1 env2 : AttachEnv) (scope1 scope2 : Scope) (envId1 envId2 : Nat)
    (sharedPartName templateHandle templateType : String) (c1 c2 : Config)
    (hg1 : ¬(scope1 = Scope.partner ∧ templateType = "exportFile"))
    (ht1 : jsTruthy (env1.templateConfig.scopedId scope1 envId1) = true)
    (hs1 : jsTruthy (env1.sharedPartConfig.scopedId scope1 envId1) = true)
    (hr1 : attachResponseFailed env1.attachResponse = false)
    (hcount : countMatching templateHandle (usedInList env1.sharedPartConfig) ≤ 1)
    (h1 : (addSharedPart env1 scope1 envId1 sharedPartName templateHandle templateType).1 = some c1)
    (henv2 : env2.sharedPartConfig = c1)
    (hg2 : ¬(scope2 = Scope.partner ∧ templateType = "exportFile"))
    (ht2 : jsTruthy (env2.templateConfig.scopedId scope2 envId2) = true)
    (hs2 : jsTruthy (env2.sharedPartConfig.scopedId scope2 envId2) = true)
    (hr2 : attachResponseFailed env2.attachResponse = false)
    (h2 : (addSharedPart env2 scope2 envId2 sharedPartName templateHandle templateType).1 = some c2) :
    countMatching templateHandle (usedInList c2) = 1 := by
  have e1 := addSharedPart_happy_path env1 scope1 envId1 sharedPartName templateHandle
    templateType hg1 ht1 hs1 hr1
  rw [h1] at e1
  have hc1 : c1 = storeUsedIn scope1 envId1 templateType templateHandle
      env1.templateConfig env1.sharedPartConfig := Option.some.inj e1
  have e2 := addSharedPart_happy_path env2 scope2 envId2 sharedPartName templateHandle
    templateType hg2 ht2 hs2 hr2
  rw [h2] at e2
  have hc2 : c2 = storeUsedIn scope2 envId2 templateType templateHandle
      env2.templateConfig env2.sharedPartConfig := Option.some.inj e2
  have hcount1 : countMatching templateHandle (usedInList c1) = 1 := by
    rw [hc1]
    exact storeUsedIn_count scope1 envId1 templateType templateHandle
      env1.templateConfig env1.sharedPartConfig hcount
  rw [hc2, henv2]
  exact storeUsedIn_count scope2 envId2 templateType templateHandle
    env2.templateConfig c1 (by omega)

/-- Reconciliation-text config with firm id `42` in environment `1`. -/
def tCfgW : Config := { id := some [(1, some 42)], partnerId := some [], used_in := none }

/-- Shared-part config with firm id `7` in environment `1` and no
`used_in` list yet. -/
def sCfgW : Config := { id := some [(1, some 7)], partnerId := some [], used_in := none }

/-- Environment of the first witness attach: both ids resolvable locally,
gateway answers 201. -/
def attachEnv1W : AttachEnv :=
  { templateConfig := tCfgW, sharedPartConfig := sCfgW,
    findTemplate := none, findSharedPart := none,
    attachResponse := some { status := some 201, data := none } }

/-- The shared-part config produced by the first witness attach. -/
def attachC1W : Config :=
  { id := some [(1, some 7)], partnerId := some [],
    used_in := some [{ type := "reconciliationText", handle := some "recon_y", name := none,
                       id := [(1, some 42)], partnerId := [] }] }

/-- Environment of the second witness attach of the same pair. -/
def attachEnv2W : AttachEnv :=
  { templateConfig := tCfgW, sharedPartConfig := attachC1W,
    findTemplate := none, findSharedPart := none,
    attachResponse := some { status := some 201, data := none } }

/-- Witness for claim C1 at a concrete input: attaching
`(reconciliationText, recon_y)` to shared part `sp_x` twice in firm 1
leaves exactly one Usage Entry. -/
theorem addSharedPart_no_duplicate_usage_entry_witness :
    countMatching "recon_y" (usedInList attachC1W) = 1 :=
  addSharedPart_no_duplicate_usage_entry attachEnv1W attachEnv2W
    Scope.firm Scope.firm 1 1 "sp_x" "recon_y" "reconciliationText" attachC1W attachC1W
    (by decide) (by decide) (by decide) (by decide) (by decide) (by decide)
    rfl (by decide) (by decide) (by decide) (by decide) (by decide)

/-- Attach environment whose gateway answers the attach call with HTTP
status 500. -/
def attachEnv500 : AttachEnv :=
  { templateConfig := tCfgW, sharedPartConfig := sCfgW,
    findTemplate := none, findSharedPart := none,
    attachResponse := some { status := some 500, data := none } }

/-- Claim C3 (code bug): a gateway attach response with status 500 — not
in the 2xx class — is treated as success.  The check
`!response || !response.status || !response.status === 201` cannot fail
on any response with a truthy status, because its last disjunct
strict-compares a boolean with 201 and is always false.  The call
proceeds to mutate and write both config records and returns the
shared-part config. -/
theorem addSharedPart_status500_treated_as_success :
    (addSharedPart attachEnv500 Scope.firm 1 "sp_x" "recon_y" "reconciliationText").1 =
      some attachC1W ∧
    Effect.writeConfig "sharedPart" "sp_x" ∈
      (addSharedPart attachEnv500 Scope.firm 1 "sp_x" "recon_y" "reconciliationText").2 := by
  decide

/-- Claim C4: identity discovery with an empty remote lookup returns
`false` and leaves the config record untouched (no write effect); a
successful lookup returns `true`, persists the config, and stores the
discovered id under `envId` in the map of the active scope. -/
theorem getTemplateId_discovery_spec (config : Config) (scope : Scope) (envId : Nat)
    (templateType handle : String) :
    (getTemplateId none config scope envId templateType handle =
       (false, config, [Effect.gatewayFind templateType handle])) ∧
    (∀ rid : Nat,
       (getTemplateId (some rid) config scope envId templateType handle).1 = true ∧
       (getTemplateId (some rid) config scope envId templateType handle).2.2 =
         [Effect.gatewayFind templateType handle, Effect.writeConfig templateType handle] ∧
       ((getTemplateId (some rid) config scope envId templateType handle).2.1).scopedId scope envId
         = some rid) := by
  refine ⟨rfl, fun rid => ⟨rfl, rfl, ?_⟩⟩
  cases scope
  · simp [getTemplateId, Config.scopedId, JsObj.getVal_set]
  · simp [getTemplateId, Config.scopedId, JsObj.getVal_set]

theorem addSharedPartStep3_effects (env : AttachEnv) (scope : Scope) (envId : Nat)
    (sharedPartName templateHandle templateType : String) (tCfg sCfg : Config)
    (eff : List Effect) :
    ∃ tail, (addSharedPartStep3 env scope envId sharedPartName templateHandle templateType
      tCfg sCfg eff).2 = eff ++ tail := by
  by_cases h : attachResponseFailed env.attachResponse = true
  · exact ⟨[Effect.gatewayAttach], by simp [addSharedPartStep3, h]⟩
  · refine ⟨[Effect.gatewayAttach, Effect.writeConfig templateType templateHandle,
      Effect.writeConfig "sharedPart" sharedPartName], ?_⟩
    simp [addSharedPartStep3, h]

theorem addSharedPartStep2_effects (env : AttachEnv) (scope : Scope) (envId : Nat)
    (sharedPartName templateHandle templateType : String) (tCfg sCfg : Config)
    (eff : List Effect) :
    ∃ tail, (addSharedPartStep2 env scope envId sharedPartName templateHandle templateType
      tCfg sCfg eff).2 = eff ++ tail := by
  unfold addSharedPartStep2
  by_cases h : jsTruthy (sCfg.scopedId scope envId) = true
  · simpa [h] using addSharedPartStep3_effects env scope envId sharedPartName
      templateHandle templateType tCfg sCfg eff
  · by_cases hr : (getTemplateId env.findSharedPart sCfg scope envId "sharedPart" sharedPartName).1 = true
    · rw [if_neg h, if_pos hr]
      obtain ⟨tail, htail⟩ := addSharedPartStep3_effects env scope envId sharedPartName
        templateHandle templateType tCfg
        (getTemplateId env.findSharedPart sCfg scope envId "sharedPart" sharedPartName).2.1
        (eff ++ (getTemplateId env.findSharedPart sCfg scope envId "sharedPart" sharedPartName).2.2
          ++ [Effect.readConfig "sharedPart" sharedPartName])
      refine ⟨(getTemplateId env.findSharedPart sCfg scope envId "sharedPart" sharedPartName).2.2
        ++ [Effect.readConfig "sharedPart" sharedPartName] ++ tail, ?_⟩
      rw [htail]
      simp [List.append_assoc]
    · exact ⟨(getTemplateId env.findSharedPart sCfg scope envId "sharedPart" sharedPartName).2.2,
        by simp [h, hr]⟩

/-- Claim C9: attaching a shared part to an export-file template under
partner scope is rejected up front — `false` with an empty effect trace,
so no gateway call and no config read or write happened — while the same
call under firm scope passes the guard and does read the template's
config. -/
theorem addSharedPart_partner_exportFile_guard (env : AttachEnv) (envId : Nat)
    (sharedPartName templateHandle : String) :
    addSharedPart env Scope.partner envId sharedPartName templateHandle "exportFile" =
      (none, []) ∧
    Effect.readConfig "exportFile" templateHandle ∈
      (addSharedPart env Scope.firm envId sharedPartName templateHandle "exportFile").2 := by
  constructor
  · unfold addSharedPart
    rw [if_pos ⟨rfl, rfl⟩]
  · unfold addSharedPart
    rw [if_neg (by simp)]
    by_cases h : jsTruthy (env.templateConfig.scopedId Scope.firm envId) = true
    · obtain ⟨tail, htail⟩ := addSharedPartStep2_effects env Scope.firm envId sharedPartName
        templateHandle "exportFile" env.templateConfig env.sharedPartConfig
        [Effect.readConfig "exportFile" templateHandle,
         Effect.readConfig "sharedPart" sharedPartName]
      simp [h, htail]
    · by_cases hr : (getTemplateId env.findTemplate env.templateConfig Scope.firm envId
          "exportFile" templateHandle).1 = true
      · rw [if_neg h, if_pos hr]
        obtain ⟨tail, htail⟩ := addSharedPartStep2_effects env Scope.firm envId sharedPartName
          templateHandle "exportFile"
          (getTemplateId env.findTemplate env.templateConfig Scope.firm envId
            "exportFile" templateHandle).2.1 env.sharedPartConfig
          ([Effect.readConfig "exportFile" templateHandle,
            Effect.readConfig "sharedPart" sharedPartName]
            ++ (getTemplateId env.findTemplate env.templateConfig Scope.firm envId
                 "exportFile" templateHandle).2.2
            ++ [Effect.readConfig "exportFile" templateHandle])
        rw [htail]
        simp
      · simp [h, hr]

/-! ## Usage-graph detach: `removeSharedPart` (src/index.js lines 1397-1504) -/

/-- The identity map of a Usage Entry for the active scope
(`usedInTemplateConfig.id` for firm, `.partnerId` for partner). -/
def activeMap (scope : Scope) (e : UsageEntry) : JsObj :=
  match scope with
  | Scope.firm => e.id
  | Scope.partner => e.partnerId

/-- `delete usedInTemplateConfig.id[envId]` (resp. `.partnerId[envId]`). -/
def eraseActive (scope : Scope) (envId : Nat) (e : UsageEntry) : UsageEntry :=
  match scope with
  | Scope.firm => { e with id := e.id.erase envId }
  | Scope.partner => { e with partnerId := e.partnerId.erase envId }

/-- Lines 1470-1493: prune one matched Usage Entry.  `none` means the
whole entry is removed (spliced) — this happens when the total number of
keys across both maps is at most one and the remaining id equals the
resolved template id.  Otherwise only the `envId` key of the active
scope's map is deleted; when the active map has no usable id for `envId`
the entry is left as is. -/
def detachEntry (scope : Scope) (envId templateId : Nat) (e : UsageEntry) :
    Option UsageEntry :=
  let totalIds := e.id.length + e.partnerId.length
  match (activeMap scope e).getVal envId with
  | none => some e
  | some targetId =>
    if targetId = 0 then some e
    else if totalIds ≤ 1 ∧ targetId = templateId then none
    else some (eraseActive scope envId e)

/-- Find the first Usage Entry matching the template handle (the
`findIndex` of line 1458) and prune it; `none` when no entry matches. -/
def detachFromUsedIn (templateHandle : String) (scope : Scope)
    (envId templateId : Nat) : List UsageEntry → Option (List UsageEntry)
  | [] => none
  | e :: es =>
    if entryMatches templateHandle e then
      some (match detachEntry scope envId templateId e with
            | none => es
            | some e2 => e2 :: es)
    else
      Option.map (fun l => e :: l) (detachFromUsedIn templateHandle scope envId templateId es)

/-- Outcome of a `removeSharedPart` call: an early `return false` on a
missing id, normal completion, or an exception reaching the catch-all
`errorUtils.errorHandler`. -/
inductive DetachOutcome : Type
  | failedGuard
  | completed
  | threw
deriving DecidableEq, Repr

/-- Environment of one `removeSharedPart` call. -/
structure DetachEnv : Type where
  templateConfig : Config
  sharedPartConfig : Config
  detachResponse : Option SfResponse
deriving DecidableEq, Repr

/-- `removeSharedPart(type, envId, sharedPartHandle, templateHandle,
templateType)`: resolve both ids from local state only (missing ids fail
the call), invoke the gateway detach, then run the local bookkeeping.
The remote response's status only controls a debug log (line 1451); the
bookkeeping of lines 1458-1496 runs regardless of it.  Returns
(outcome, final shared-part config, effects). -/
def removeSharedPart (env : DetachEnv) (scope : Scope) (envId : Nat)
    (sharedPartHandle templateHandle templateType : String) :
    DetachOutcome × Config × List Effect :=
  let eff1 : List Effect :=
    [Effect.readConfig templateType templateHandle,
     Effect.readConfig "sharedPart" sharedPartHandle]
  let tCfg := env.templateConfig
  let sCfg := env.sharedPartConfig
  match tCfg.scopedId scope envId with
  | none => (DetachOutcome.failedGuard, sCfg, eff1)
  | some templateId =>
    if templateId = 0 then (DetachOutcome.failedGuard, sCfg, eff1)
    else
      if jsTruthy (sCfg.scopedId scope envId) = false then
        (DetachOutcome.failedGuard, sCfg, eff1)
      else
        let eff2 := eff1 ++ [Effect.gatewayDetach]
        match sCfg.used_in with
        | none => (DetachOutcome.threw, sCfg, eff2)
        | some entries =>
          match detachFromUsedIn templateHandle scope envId templateId entries with
          | none => (DetachOutcome.completed, sCfg, eff2)
          | some entries2 =>
            ((DetachOutcome.completed : DetachOutcome),
              ({ sCfg with used_in := some entries2 } : Config),
              eff2 ++ [Effect.writeConfig "sharedPart" sharedPartHandle])

theorem detachFromUsedIn_none (templateHandle : String) (scope : Scope)
    (envId templateId : Nat) (l : List UsageEntry)
    (h : ∀ x ∈ l, entryMatches templateHandle x = false) :
    detachFromUsedIn templateHandle scope envId templateId l = none := by
  induction l with
  | nil => rfl
  | cons e es ih =>
    have he := h e (by simp)
    simp [detachFromUsedIn, he, ih (fun x hx => h x (by simp [hx]))]

theorem detachFromUsedIn_match (templateHandle : String) (scope : Scope)
    (envId templateId : Nat) (pre post : List UsageEntry) (e : UsageEntry)
    (hpre : ∀ x ∈ pre, entryMatches templateHandle x = false)
    (he : entryMatches templateHandle e = true) :
    detachFromUsedIn templateHandle scope envId templateId (pre ++ e :: post) =
      some (pre ++ (match detachEntry scope envId templateId e with
                    | none => post
                    | some e2 => e2 :: post)) := by
  induction pre with
  | nil => simp [detachFromUsedIn, he]
  | cons x xs ih =>
    have hx := hpre x (by simp)
    simp [detachFromUsedIn, hx, ih (fun y hy => hpre y (by simp [hy]))]

/-- With both ids resolvable and a `used_in` list present,
`removeSharedPart` reduces to the local pruning of that list. -/
theorem removeSharedPart_reduces (env : DetachEnv) (scope : Scope) (envId t : Nat)
    (sharedPartHandle templateHandle templateType : String) (entries : List UsageEntry)
    (ht : env.templateConfig.scopedId scope envId = some t) (ht0 : t ≠ 0)
    (hs : jsTruthy (env.sharedPartConfig.scopedId scope envId) = true)
    (hu : env.sharedPartConfig.used_in = some entries) :
    removeSharedPart env scope envId sharedPartHandle templateHandle templateType =
      match detachFromUsedIn templateHandle scope envId t entries with
      | none => (DetachOutcome.completed, env.sharedPartConfig,
          [Effect.readConfig templateType templateHandle,
           Effect.readConfig "sharedPart" sharedPartHandle, Effect.gatewayDetach])
      | some entries2 => (DetachOutcome.completed,
          { env.sharedPartConfig with used_in := some entries2 },
          [Effect.readConfig templateType templateHandle,
           Effect.readConfig "sharedPart" sharedPartHandle, Effect.gatewayDetach,
           Effect.writeConfig "sharedPart" sharedPartHandle]) := by
  unfold removeSharedPart
  simp only [ht, hu]
  rw [if_neg ht0, if_neg (by simp [hs])]
  cases hd : detachFromUsedIn templateHandle scope envId t entries <;> simp [hd]

/-- Claim C2: detach bookkeeping on the shared part's config.  When no
Usage Entry matches the template handle the local config is unchanged.
When one matches: if the total number of environment keys across its
`id` and `partnerId` maps is at most one and the remaining id equals the
resolved template id, the whole entry is removed; otherwise only the
`envId` key of the active scope's map is deleted, the entry and the
other scope's map remaining in place. -/
theorem removeSharedPart_local_pruning (env : DetachEnv) (scope : Scope)
    (envId t : Nat) (sharedPartHandle templateHandle templateType : String)
    (ht : env.templateConfig.scopedId scope envId = some t) (ht0 : t ≠ 0)
    (hs : jsTruthy (env.sharedPartConfig.scopedId scope envId) = true) :
    (∀ entries, env.sharedPartConfig.used_in = some entries →
       (∀ x ∈ entries, entryMatches templateHandle x = false) →
       (removeSharedPart env scope envId sharedPartHandle templateHandle templateType).2.1 =
         env.sharedPartConfig) ∧
    (∀ pre e post, env.sharedPartConfig.used_in = some (pre ++ e :: post) →
       (∀ x ∈ pre, entryMatches templateHandle x = false) →
       entryMatches templateHandle e = true →
       ((e.id.length + e.partnerId.length ≤ 1 →
           (activeMap scope e).getVal envId = some t →
           (removeSharedPart env scope envId sharedPartHandle templateHandle
             templateType).2.1.used_in = some (pre ++ post)) ∧
        (∀ u, (activeMap scope e).getVal envId = some u → u ≠ 0 →
           ¬(e.id.length + e.partnerId.length ≤ 1 ∧ u = t) →
           (removeSharedPart env scope envId sharedPartHandle templateHandle
             templateType).2.1.used_in =
             some (pre ++ eraseActive scope envId e :: post)))) := by
  refine ⟨?_, ?_⟩
  · intro entries hu hnone
    rw [removeSharedPart_reduces env scope envId t sharedPartHandle templateHandle
      templateType entries ht ht0 hs hu]
    rw [detachFromUsedIn_none templateHandle scope envId t entries hnone]
  · intro pre e post hu hpre he
    have hred := removeSharedPart_reduces env scope envId t sharedPartHandle templateHandle
      templateType (pre ++ e :: post) ht ht0 hs hu
    constructor
    · intro hle htarget
      have hde : detachEntry scope envId t e = none := by
        simp [detachEntry, htarget, ht0, hle]
      rw [hred, detachFromUsedIn_match templateHandle scope envId t pre post e hpre he, hde]
    · intro u htarget hu0 hnot
      have hde : detachEntry scope envId t e = some (eraseActive scope envId e) := by
        simp [detachEntry, htarget, hu0, hnot]
      rw [hred, detachFromUsedIn_match templateHandle scope envId t pre post e hpre he, hde]

/-- Witness for claim C2 at a concrete input: detaching
`(reconciliationText, recon_y)` whose single Usage Entry holds exactly
one id (firm 1 → 42, empty `partnerId`) removes the whole entry. -/
theorem removeSharedPart_local_pruning_witness :
    (removeSharedPart
        { templateConfig := tCfgW, sharedPartConfig := attachC1W,
          detachResponse := some { status := some 200, data := none } }
        Scope.firm 1 "sp_x" "recon_y" "reconciliationText").2.1.used_in =
      some ([] ++ []) :=
  ((removeSharedPart_local_pruning
      { templateConfig := tCfgW, sharedPartConfig := attachC1W,
        detachResponse := some { status := some 200, data := none } }
      Scope.firm 1 42 "sp_x" "recon_y" "reconciliationText"
      rfl (by decide) (by decide)).2
    [] { type := "reconciliationText", handle := some "recon_y", name := none,
         id := [(1, some 42)], partnerId := [] } []
    (by decide) (by decide) (by decide)).1 (by decide) (by decide)

/-- Detach environment whose gateway answers the detach call with HTTP
status 500. -/
def detachEnv500 : DetachEnv :=
  { templateConfig := tCfgW, sharedPartConfig := attachC1W,
    detachResponse := some { status := some 500, data := none } }

/-- Claim C5 counterexample: the gateway detach answers status 500 —
neither a prior success nor an already-detached condition — yet the
local bookkeeping still runs: the Usage Entry is pruned away and the
shared part's config is written. -/
theorem removeSharedPart_updates_on_failed_response :
    (removeSharedPart detachEnv500 Scope.firm 1 "sp_x" "recon_y"
        "reconciliationText").2.1 ≠ detachEnv500.sharedPartConfig ∧
    Effect.writeConfig "sharedPart" "sp_x" ∈
      (removeSharedPart detachEnv500 Scope.firm 1 "sp_x" "recon_y"
        "reconciliationText").2.2 := by
  decide

/-- Claim C5 (amended): `removeSharedPart` never branches on the remote
detach response — local bookkeeping and persistence run identically for
every response, the status only controlling a debug log. -/
theorem removeSharedPart_response_independent (env : DetachEnv)
    (r : Option SfResponse) (scope : Scope) (envId : Nat)
    (sharedPartHandle templateHandle templateType : String) :
    removeSharedPart { env with detachResponse := r } scope envId
        sharedPartHandle templateHandle templateType =
      removeSharedPart env scope envId sharedPartHandle templateHandle templateType := rfl

/-! ## Publish: `publishReconciliationByHandle` / `publishSharedPartByName`
(src/index.js lines 602-656 and 1096-1148, new surface) -/

/-- Environment of one publish call: whether a config file exists, the
config, whether the local template body could be read, and the gateway's
update response. -/
structure PublishEnv : Type where
  configPresent : Bool
  config : Config
  body : Bool
  updateResponse : Option SfResponse
deriving DecidableEq, Repr

/-- `publishReconciliationByHandle(type, envId, handle, message)`.
Returns the JS return value (`some true`/`some false`, `none` for the
bare `return` on a missing body) and the effect trace.  Success requires
`response && response.data && response.data.handle` to be truthy. -/
def publishReconciliationByHandle (env : PublishEnv) (scope : Scope) (envId : Nat)
    (handle : String) : Option Bool × List Effect :=
  if env.configPresent = false then (some false, [])
  else
    let eff1 : List Effect := [Effect.readConfig "reconciliationText" handle]
    if jsTruthy (env.config.scopedId scope envId) = false then (some false, eff1)
    else if env.body = false then (none, eff1)
    else
      let eff2 := eff1 ++ [Effect.gatewayUpdate]
      match env.updateResponse with
      | none => (some false, eff2)
      | some r =>
        match r.data with
        | none => (some false, eff2)
        | some d => (if jsTruthyStr d.handle then some true else some false, eff2)

/-- `publishSharedPartByName(type, envId, name, message)`: identical
control flow; success hinges on `response.data.name`. -/
def publishSharedPartByName (env : PublishEnv) (scope : Scope) (envId : Nat)
    (name : String) : Option Bool × List Effect :=
  if env.configPresent = false then (some false, [])
  else
    let eff1 : List Effect := [Effect.readConfig "sharedPart" name]
    if jsTruthy (env.config.scopedId scope envId) = false then (some false, eff1)
    else if env.body = false then (none, eff1)
    else
      let eff2 := eff1 ++ [Effect.gatewayUpdate]
      match env.updateResponse with
      | none => (some false, eff2)
      | some r =>
        match r.data with
        | none => (some false, eff2)
        | some d => (if jsTruthyStr d.name then some true else some false, eff2)

/-- Claim C6: a publish whose config record is absent or has no remote id
for the requested scope and environment returns `false` without any
network call — in particular without attempting discovery. -/
theorem publish_missing_id_fails_fast (env : PublishEnv) (scope : Scope)
    (envId : Nat) (handle name : String)
    (hmiss : env.configPresent = false ∨ env.config.scopedId scope envId = none) :
    ((publishReconciliationByHandle env scope envId handle).1 = some false ∧
     (publishReconciliationByHandle env scope envId handle).2.filter isNetworkEffect = []) ∧
    ((publishSharedPartByName env scope envId name).1 = some false ∧
     (publishSharedPartByName env scope envId name).2.filter isNetworkEffect = []) := by
  cases hmiss with
  | inl hc =>
    simp [publishReconciliationByHandle, publishSharedPartByName, hc]
  | inr hid =>
    by_cases hc : env.configPresent = false
    · simp [publishReconciliationByHandle, publishSharedPartByName, hc]
    · simp [publishReconciliationByHandle, publishSharedPartByName, hc, hid,
        jsTruthy, isNetworkEffect]

/-- Publish environment whose config record has no id at all. -/
def publishEnvNoId : PublishEnv :=
  { configPresent := true,
    config := { id := some [], partnerId := some [], used_in := none },
    body := true,
    updateResponse := some { status := some 200, data := none } }

/-- Witness for claim C6 at a concrete input. -/
theorem publish_missing_id_fails_fast_witness :
    (publishReconciliationByHandle publishEnvNoId Scope.firm 1 "recon_y").1 = some false ∧
    (publishReconciliationByHandle publishEnvNoId Scope.firm 1 "recon_y").2.filter
      isNetworkEffect = [] :=
  (publish_missing_id_fails_fast publishEnvNoId Scope.firm 1 "recon_y" "sp_x"
    (Or.inr (by decide))).1

/-- Response data echoing a different artifact's handle and name. -/
def foreignEchoData : RespData :=
  { handle := some "other_handle", name := some "other_name",
    name_nl := none, dataId := some 99 }

/-- Publish environment whose gateway update answers 200 but echoes a
different artifact's handle and name. -/
def publishEnvForeignEcho : PublishEnv :=
  { configPresent := true,
    config := { id := some [(1, some 42)], partnerId := some [], used_in := none },
    body := true,
    updateResponse := some { status := some 200, data := some foreignEchoData } }

/-- Claim C8 counterexample: a response carrying a different artifact's
identifier (`other_handle` instead of the published `recon_y`) still
yields a success result — the code only checks presence of the echoed
field, never that it matches the artifact being published. -/
theorem publish_success_despite_foreign_echo :
    (publishReconciliationByHandle publishEnvForeignEcho Scope.firm 1 "recon_y").1 =
      some true ∧
    "other_handle" ≠ "recon_y" := by
  constructor
  · decide
  · decide

/-- Claim C8 (amended): once a publish reaches the gateway update, its
result is success if and only if the response carries a truthy
identifying field in its `data` (the handle for reconciliations, the
name for shared parts), with no comparison against the published
artifact's own identifier; a response lacking that echo yields failure. -/
theorem publish_success_iff_nonempty_echo (env : PublishEnv) (scope : Scope)
    (envId : Nat) (handle name : String)
    (hc : env.configPresent = true)
    (ht : jsTruthy (env.config.scopedId scope envId) = true)
    (hb : env.body = true) :
    ((publishReconciliationByHandle env scope envId handle).1 = some true ↔
       ∃ r d s, env.updateResponse = some r ∧ r.data = some d ∧
         d.handle = some s ∧ s ≠ "") ∧
    ((publishSharedPartByName env scope envId name).1 = some true ↔
       ∃ r d s, env.updateResponse = some r ∧ r.data = some d ∧
         d.name = some s ∧ s ≠ "") := by
  constructor
  · unfold publishReconciliationByHandle
    rw [if_neg (by simp [hc]), if_neg (by simp [ht]), if_neg (by simp [hb])]
    cases hr : env.updateResponse with
    | none => simp [hr]
    | some r =>
      cases hd : r.data with
      | none => simp [hr, hd]
      | some d =>
        cases hh : d.handle with
        | none => simp [hr, hd, hh, jsTruthyStr]
        | some s =>
          by_cases hs : s = ""
          · simp [hr, hd, hh, hs, jsTruthyStr]
          · simp [hr, hd, hh, hs, jsTruthyStr]
  · unfold publishSharedPartByName
    rw [if_neg (by simp [hc]), if_neg (by simp [ht]), if_neg (by simp [hb])]
    cases hr : env.updateResponse with
    | none => simp [hr]
    | some r =>
      cases hd : r.data with
      | none => simp [hr, hd]
      | some d =>
        cases hh : d.name with
        | none => simp [hr, hd, hh, jsTruthyStr]
        | some s =>
          by_cases hs : s = ""
          · simp [hr, hd, hh, hs, jsTruthyStr]
          · simp [hr, hd, hh, hs, jsTruthyStr]

/-- Response data echoing the published artifact itself. -/
def ownEchoData : RespData :=
  { handle := some "recon_y", name := some "sp_x", name_nl := none, dataId := some 42 }

/-- Publish environment with a well-formed echo of the published
artifact. -/
def publishEnvEcho : PublishEnv :=
  { configPresent := true,
    config := { id := some [(1, some 42)], partnerId := some [], used_in := none },
    body := true,
    updateResponse := some { status := some 200, data := some ownEchoData } }

/-- Witness for claim C8's amended statement at a concrete input. -/
theorem publish_success_iff_nonempty_echo_witness :
    (publishReconciliationByHandle publishEnvEcho Scope.firm 1 "recon_y").1 = some true :=
  ((publish_success_iff_nonempty_echo publishEnvEcho Scope.firm 1 "recon_y" "sp_x"
    (by rfl) (by decide) (by rfl)).1).mpr
    ⟨{ status := some 200, data := some ownEchoData }, ownEchoData,
     "recon_y", by rfl, by rfl, by rfl, by decide⟩

/-! ## Bulk import pagination: `fetchAllReconciliations` /
`fetchAllSharedParts` (src/index.js lines 573-590 and 1067-1084)

The gateway's page responses are supplied as a list of pages; the
recursion consumes them in order, mirroring `page + 1` requests. -/

/-- `fetchAllReconciliations(type, envId, page)`: fetch the current page;
when it is empty, report "nothing found" only if this is page 1 and
stop; otherwise save every record of the page and recurse into the next
page.  Returns (records saved, whether the nothing-found message was
reported). -/
def fetchAllReconciliations (pages : List (List Nat)) (page : Nat) : List Nat × Bool :=
  match pages with
  | [] => ([], false)
  | templates :: rest =>
    if templates.length = 0 then ([], page == 1)
    else
      let r := fetchAllReconciliations rest (page + 1)
      (templates ++ r.1, r.2)

theorem fetchAllReconciliations_go (ps qs : List (List Nat)) (n : Nat)
    (hn : 1 ≤ n) (hne : ∀ p ∈ ps, p ≠ []) :
    fetchAllReconciliations (ps ++ [] :: qs) n = (ps.flatten, n == 1 && ps.isEmpty) := by
  induction ps generalizing n with
  | nil =>
    simp [fetchAllReconciliations]
  | cons t ts ih =>
    have htne : t ≠ [] := hne t (by simp)
    have hlen : ¬t.length = 0 := by simpa using htne
    have hrec := ih (n + 1) (by omega) (fun p hp => hne p (by simp [hp]))
    simp only [List.cons_append, fetchAllReconciliations, hlen, if_false, List.append_eq]
    rw [hrec]
    have : ((n + 1 : Nat) == 1) = false := by
      simp only [beq_eq_false_iff_ne, ne_eq]
      omega
    simp [this]

/-- Claim C7: over a page sequence of non-empty pages `ps` followed by an
empty page and arbitrary further pages `qs`, the import saves exactly
the records of `ps` in order, never looks past the empty page, and
reports "nothing found" exactly when page 1 itself is empty. -/
theorem fetchAllReconciliations_pagination (ps qs : List (List Nat))
    (hne : ∀ p ∈ ps, p ≠ []) :
    fetchAllReconciliations (ps ++ [] :: qs) 1 = (ps.flatten, ps.isEmpty) := by
  rw [fetchAllReconciliations_go ps qs 1 (by omega) hne]
  simp

/-- Witness for claim C7 at the spec's own example: pages `[A,B]`, `[C]`,
`[]` save exactly `A`, `B`, `C` and report nothing. -/
theorem fetchAllReconciliations_pagination_witness :
    fetchAllReconciliations ([[1, 2], [3]] ++ [] :: []) 1 = ([1, 2, 3], false) :=
  fetchAllReconciliations_pagination [[1, 2], [3]] [] (by decide)

/-! ## Account-template creation: `newAccountTemplate`
(src/index.js lines 1001-1028) -/

/-- The part of `newAccountTemplate` from the gateway create call on:
`const handle = response.data.name_nl;` dereferences `data` before the
`response && response.status == 201` guard runs; a missing response or a
missing `data` object therefore throws a `TypeError` (modelled as
`Except.error`), which is only caught by the surrounding catch-all
`errorUtils.errorHandler`.  On the 201 path the new id is stored under
the echoed `name_nl`. -/
def newAccountTemplateAfterCreate (response : Option SfResponse) :
    Except String (Option (Option String × Option Nat)) :=
  match response with
  | none => Except.error "TypeError"
  | some r =>
    match r.data with
    | none => Except.error "TypeError"
    | some d =>
      let handle := d.name_nl
      if r.status = some 201 then Except.ok (some (handle, d.dataId))
      else Except.ok none

/-- Claim C10: whenever the gateway create response is missing or lacks a
`data` object — whatever its status, including 201 — the account-template
creation throws instead of returning cleanly: the `name_nl` dereference
precedes the status guard, so the guard cannot protect it. -/
theorem newAccountTemplate_deref_before_guard (response : Option SfResponse)
    (h : response.bind (fun r => r.data) = none) :
    newAccountTemplateAfterCreate response = Except.error "TypeError" := by
  cases response with
  | none => rfl
  | some r =>
    cases hd : r.data with
    | none => simp [newAccountTemplateAfterCreate, hd]
    | some d => simp [hd] at h

/-- Witness for claim C10 at a concrete input: a 201 response without a
`data` object still throws. -/
theorem newAccountTemplate_deref_before_guard_witness :
    newAccountTemplateAfterCreate (some { status := some 201, data := none }) =
      Except.error "TypeError" :=
  newAccountTemplate_deref_before_guard
    (some { status := some 201, data := none }) (by rfl)

end Silverfin
